import Mathlib

/-!
# Verification of the nmos-rs core (resource model + registry discovery)

A shallow embedding of the nmos-rs node library: the `Device` resource and
its builder (`src/model/src/resource/device.rs`), the orchestrator's startup
and discovery-event loop (`src/node/src/node/mod.rs`), and — where the code
lives outside the given sources — definitions modelled from the spec
(candidate parsing, the resource model's insert operations, version
stamping).  Effectful Rust code (`Uuid::new_v4`, `TaiTime::now`) is embedded
by threading an explicit generator state.
-/

set_option autoImplicit false

namespace Nmos

/-! ## UUIDs and their lowercase hyphenated rendering -/

/-- A 128-bit identifier, as produced by the `uuid` crate (`uuid::Uuid`). -/
def Uuid : Type := Fin (2 ^ 128)

instance : DecidableEq Uuid := by unfold Uuid; infer_instance

/-- The value of a `Uuid` as a natural number. -/
def Uuid.val (u : Uuid) : Nat := Fin.val u

/-- Lower-case hex digit for a nibble, as rendered by `uuid`'s `Display`. -/
def nibbleChar (d : Nat) : Char :=
  if d < 10 then Char.ofNat (48 + d) else Char.ofNat (87 + d)

/-- Inverse of `nibbleChar`: decode one lower-case hex digit. -/
def charNibble (c : Char) : Option Nat :=
  if 48 ≤ c.toNat ∧ c.toNat ≤ 57 then some (c.toNat - 48)
  else if 97 ≤ c.toNat ∧ c.toNat ≤ 102 then some (c.toNat - 87)
  else none

/-- Big-endian fixed-width hex rendering of `n` over `len` nibbles. -/
def natToHex (n : Nat) (len : Nat) : List Char :=
  match len with
  | 0 => []
  | l + 1 => nibbleChar (n / 16 ^ l) :: natToHex (n % 16 ^ l) l

/-- Consume exactly `k` hex digits from `cs`, extending the accumulator. -/
def takeHex (k : Nat) (acc : Nat) (cs : List Char) : Option (Nat × List Char) :=
  match k with
  | 0 => some (acc, cs)
  | k + 1 =>
    match cs with
    | [] => none
    | c :: cs' =>
      match charNibble c with
      | some d => takeHex k (acc * 16 + d) cs'
      | none => none

/-- The `uuid` crate's `to_string`: 32 lower-case hex digits in five
hyphen-separated groups of 8-4-4-4-12, big-endian. -/
def Uuid.render (u : Uuid) : String :=
  let n := Uuid.val u
  String.mk (natToHex (n / 16 ^ 24) 8 ++ '-' ::
    (natToHex (n / 16 ^ 20 % 16 ^ 4) 4 ++ '-' ::
      (natToHex (n / 16 ^ 16 % 16 ^ 4) 4 ++ '-' ::
        (natToHex (n / 16 ^ 12 % 16 ^ 4) 4 ++ '-' ::
          natToHex (n % 16 ^ 12) 12))))

/-- Expect one specific character at the head of the input. -/
def expectChar (c : Char) : List Char → Option (List Char)
  | [] => none
  | x :: xs => if x = c then some xs else none

/-- Modelled from the spec: parsing a wire-format UUID character sequence
back into a 128-bit identifier ("UUID as lowercase hyphenated string" is
part of the wire contract; the parse direction lives in the schema crate,
outside the given sources).  Five hyphen-separated hex groups of
8-4-4-4-12 digits, big-endian. -/
def parseUuidChars (cs : List Char) : Option Uuid := do
  let p1 ← takeHex 8 0 cs
  let r1 ← expectChar '-' p1.2
  let p2 ← takeHex 4 0 r1
  let r2 ← expectChar '-' p2.2
  let p3 ← takeHex 4 0 r2
  let r3 ← expectChar '-' p3.2
  let p4 ← takeHex 4 0 r3
  let r4 ← expectChar '-' p4.2
  let p5 ← takeHex 12 0 r4
  if p5.2 = [] then
    let n := p1.1 * 16 ^ 24 + p2.1 * 16 ^ 20 + p3.1 * 16 ^ 16 +
      p4.1 * 16 ^ 12 + p5.1
    if h : n < 2 ^ 128 then some ⟨n, h⟩ else none
  else none

/-- Parse a wire-format UUID string. -/
def parseUuid (s : String) : Option Uuid :=
  parseUuidChars s.toList

/-! ## TAI timestamps -/

/-- The two-component version timestamp (`TaiTime` in `src/model/src/tai.rs`,
referenced by `device.rs`; the spec fixes the representation as seconds and
nanoseconds-since-second). -/
structure TaiTime where
  secs : Nat
  nanos : Nat
  deriving DecidableEq, Repr

/-- The wire rendering of a version: `"<seconds>:<nanoseconds>"`. -/
def TaiTime.render (t : TaiTime) : String :=
  toString t.secs ++ ":" ++ toString t.nanos

/-- Lexicographic order on timestamps: seconds first, then nanoseconds. -/
def TaiTime.leb (a b : TaiTime) : Bool :=
  decide (a.secs < b.secs) || (decide (a.secs = b.secs) && decide (a.nanos ≤ b.nanos))

/-- Modelled from the spec: the larger of two timestamps, used so a version
"is never allowed to move backward even if the underlying clock does". -/
def TaiTime.max (a b : TaiTime) : TaiTime :=
  if a.leb b then b else a

/-! ## Effect source

`Uuid::new_v4()` and `TaiTime::now()` are effectful; the embedding threads
an explicit generator supplying the identifier and timestamp produced by
the `k`-th call. -/

/-- Explicit state standing for the process's entropy and clock: the
identifier and timestamp returned by the `idx`-th effectful call. -/
structure Gen where
  uuidOf : Nat → Uuid
  timeOf : Nat → TaiTime
  idx : Nat

/-- One effectful step: yield a fresh identifier and the current time. -/
def Gen.fresh (g : Gen) : Uuid × TaiTime × Gen :=
  (g.uuidOf g.idx, g.timeOf g.idx, { g with idx := g.idx + 1 })

/-! ## Resources (`src/model/src/resource/`) -/

/-- The root resource (`resource::Node`); `device.rs` reads its `id` field.
Field set per the spec's resource table: id, version, label. -/
structure NodeRes where
  id : Uuid
  version : TaiTime
  label : String

/-- Struct `Device` from `src/model/src/resource/device.rs`. -/
structure Device where
  id : Uuid
  version : TaiTime
  label : String
  type_ : String
  node_id : Uuid
  senders : List Uuid
  receivers : List Uuid

/-- Struct `DeviceBuilder` from `device.rs`: pending label, mandatory type, and the
parent node's identifier. -/
structure DeviceBuilder where
  label : Option String
  type_ : String
  node_id : Uuid

/-- Constructor `DeviceBuilder::new(node, device_type)`: stores `node.id`, leaves the
label unset. -/
def DeviceBuilder.new (node : NodeRes) (device_type : String) : DeviceBuilder :=
  { label := none, type_ := device_type, node_id := node.id }

/-- Setter `DeviceBuilder::label`: set the optional label. -/
def DeviceBuilder.setLabel (b : DeviceBuilder) (label : String) : DeviceBuilder :=
  { b with label := some label }

/-- Method `DeviceBuilder::build`: fresh id (`Uuid::new_v4`), fresh version
(`TaiTime::now`), label defaulted to the empty string, empty sender and
receiver lists. -/
def DeviceBuilder.build (b : DeviceBuilder) (g : Gen) : Device × Gen :=
  let (u, t, g') := g.fresh
  ({ id := u, version := t, label := b.label.getD "", type_ := b.type_,
     node_id := b.node_id, senders := [], receivers := [] }, g')

/-- Modelled from the spec: `resource::NodeBuilder` (not among the given
sources; the orchestrator calls `NodeBuilder::new("Test").build()`).  Per
the spec, `build()` generates the identity and stamps the initial version. -/
def NodeRes.build (label : String) (g : Gen) : NodeRes × Gen :=
  let (u, t, g') := g.fresh
  ({ id := u, version := t, label := label }, g')

/-- Media format carried by a receiver (`resource::Format`); the
orchestrator uses `Format::Video`. -/
inductive Format where
  | video
  | audio
  deriving DecidableEq

/-- Transport of a stream endpoint (`resource::Transport`); the orchestrator
uses `Transport::RtpMulticast`. -/
inductive Transport where
  | rtpMulticast
  | rtpUnicast
  deriving DecidableEq

/-- Receiver resource, field set per the spec's table: id, version, label,
format, device_id, transport. -/
structure Receiver where
  id : Uuid
  version : TaiTime
  label : String
  format : Format
  device_id : Uuid
  transport : Transport

/-- Modelled from the spec: `resource::ReceiverBuilder` (not among the given
sources).  Constructed from the parent device plus the mandatory format and
transport; `build()` generates identity and version, label defaults to
empty. -/
def Receiver.build (device : Device) (format : Format) (transport : Transport)
    (g : Gen) : Receiver × Gen :=
  let (u, t, g') := g.fresh
  ({ id := u, version := t, label := "", format := format,
     device_id := device.id, transport := transport }, g')

/-- Sender resource, field set per the spec's table: id, version, label,
flow_id, device_id, transport.  No sender is built by the orchestrator. -/
structure Sender where
  id : Uuid
  version : TaiTime
  label : String
  flow_id : Uuid
  device_id : Uuid
  transport : Transport

/-! ## The resource model (`nmos_rs_model::Model`) -/

/-- Modelled from the spec: the resource model, "a mapping of resource kind
→ identity → resource record" covering the four kinds, with `list(kind)`
ordered by insertion; embedded as one insertion-ordered sequence per kind
(the `Model` type itself is not among the given sources, only its callers). -/
structure Model where
  nodes : List NodeRes
  devices : List Device
  senders : List Sender
  receivers : List Receiver

/-- Constructor `Model::new()`: the empty model. -/
def Model.new : Model :=
  { nodes := [], devices := [], senders := [], receivers := [] }

/-- Modelled from the spec: the error taxonomy of the resource model's typed
results — a `Constraint` error for a violated relationship invariant, a
`NotFound` error for a nonexistent identifier (spec §7). -/
inductive ModelError where
  | constraint
  | notFound
  deriving DecidableEq

/-- Operation `model.insert_node`: the Node is the root of the graph and
has no parent relationship to check. -/
def Model.insertNode (m : Model) (n : NodeRes) : Model :=
  { m with nodes := m.nodes ++ [n] }

/-- Operation `model.insert_device`.  Modelled from the spec: "Insert of a
resource with a relationship to a non-existent parent fails with a
Constraint error and does not mutate the model" (§4.1) — the device's
`node_id` must reference a Node present in the model. -/
def Model.insertDevice (m : Model) (d : Device) : Except ModelError Model :=
  if m.nodes.any (fun n => decide (n.id = d.node_id)) then
    Except.ok { m with devices := m.devices ++ [d] }
  else Except.error ModelError.constraint

/-- Operation `model.insert_receiver`.  Modelled from the spec, with the
same Constraint check: the receiver's `device_id` must reference a Device
present in the model. -/
def Model.insertReceiver (m : Model) (r : Receiver) : Except ModelError Model :=
  if m.devices.any (fun d => decide (d.id = r.device_id)) then
    Except.ok { m with receivers := m.receivers ++ [r] }
  else Except.error ModelError.constraint

/-! ## Orchestrator startup (`NodeBuilder::build` in
`src/node/src/node/mod.rs`, lines 42-58) -/

/-- The startup sequence of `NodeBuilder::build`: create an empty model,
build one Node ("Test"), one Device ("devicetype") under it, one video
RTP-multicast Receiver under that, and insert the three resources.  A
failed insert leaves the model unmutated, per the spec; at these inputs
every parent is inserted before its child, so each insert succeeds.  This
completes before `Node::start` launches discovery. -/
def nodeBuilderBuild (g : Gen) : Model × Gen :=
  let m := Model.new
  let (node, g) := NodeRes.build "Test" g
  let (device, g) := DeviceBuilder.build (DeviceBuilder.new node "devicetype") g
  let (receiver, g) := Receiver.build device Format.video Transport.rtpMulticast g
  let m := m.insertNode node
  let m := match m.insertDevice device with
    | Except.ok m' => m'
    | Except.error _ => m
  let m := match m.insertReceiver receiver with
    | Except.ok m' => m'
    | Except.error _ => m
  (m, g)

/-! ## JSON projection of a Device (`device.rs`, `impl Resource for Device`) -/

/-- The schema struct `is_04::v1_0_x::DeviceJson`: all identifiers and the
version already rendered as strings (the schema crate is outside the given
sources; the field set is read off the construction in `Device::to_json`). -/
structure DeviceJson where
  id : String
  version : String
  label : String
  type_ : String
  node_id : String
  senders : List String
  receivers : List String
  deriving DecidableEq

/-- Method `Device::to_json` from `device.rs`: render ids with `to_string`, copy
label and type, map the sender and receiver id lists to strings. -/
def Device.to_json (d : Device) : DeviceJson :=
  { id := d.id.render
    version := d.version.render
    label := d.label
    type_ := d.type_
    node_id := d.node_id.render
    senders := d.senders.map Uuid.render
    receivers := d.receivers.map Uuid.render }

/-- Parse every string of a list as a UUID; fail if any fails. -/
def parseUuidList : List String → Option (List Uuid)
  | [] => some []
  | s :: ss =>
    match parseUuid s, parseUuidList ss with
    | some u, some us => some (u :: us)
    | _, _ => none

/-- The fields of a Device as recovered from the wire: identifiers decoded,
the version kept as its wire string. -/
structure DeviceWire where
  id : Uuid
  version : String
  label : String
  type_ : String
  node_id : Uuid
  senders : List Uuid
  receivers : List Uuid

/-- Modelled from the spec: parsing the protocol's Device schema back
(the parse direction lives in the schema crate, outside the given sources);
decodes the UUID strings and the id lists, keeps version, label and type. -/
def deviceFromJson (j : DeviceJson) : Option DeviceWire :=
  match parseUuid j.id, parseUuid j.node_id,
      parseUuidList j.senders, parseUuidList j.receivers with
  | some i, some n, some ss, some rs =>
    some { id := i, version := j.version, label := j.label,
           type_ := j.type_, node_id := n, senders := ss, receivers := rs }
  | _, _, _, _ => none

/-! ## Resource mutation (spec §3, §4.1) -/

/-- Modelled from the spec: `update(kind, id, mutator)` applied to one
Device (the `Model::update` code is outside the given sources).  The
mutator rewrites the resource's own fields; the model re-stamps the
version with the clock reading, clamped so it "is never allowed to move
backward even if the underlying clock does", and the identity is never
reassigned. -/
def Device.update (d : Device) (mutator : Device → Device) (now : TaiTime) :
    Device :=
  { mutator d with id := d.id, version := d.version.max now }

/-! ## Discovery events and the registry candidate loop
(`Node::start` in `src/node/src/node/mod.rs`, lines 104-113) -/

/-- A resolved mDNS service record: service name, host, port and TXT
attributes.  Modelled from the spec (the mdns module is outside the given
sources). -/
structure DnsSdDiscovery where
  name : String
  host : String
  port : Nat
  txt : List (String × String)
  deriving DecidableEq

/-- Modelled from the spec: the discovery event stream (`NmosMdnsEvent`,
defined in the mdns module outside the given sources).  `discovery` carries
the `Result` the event loop matches as `Ok`/`Err` (`none` standing for a
failed resolution); `found` and `lost` are the browse lifecycle events. -/
inductive NmosMdnsEvent where
  | found : String → NmosMdnsEvent
  | discovery : String → Option DnsSdDiscovery → NmosMdnsEvent
  | lost : String → NmosMdnsEvent
  deriving DecidableEq

/-- A parsed registry candidate (`NmosMdnsRegistry`): host, port, priority
and advertised API version, keyed by service name.  Modelled from the spec. -/
structure RegistryCandidate where
  name : String
  host : String
  port : Nat
  priority : Nat
  apiVer : String
  deriving DecidableEq

/-- Decode a decimal unsigned integer; fail on empty or non-digit input. -/
def parseNatStr (s : String) : Option Nat :=
  match s.toList with
  | [] => none
  | cs =>
    cs.foldlM
      (fun acc c =>
        if 48 ≤ c.toNat ∧ c.toNat ≤ 57 then some (acc * 10 + (c.toNat - 48))
        else none)
      0

/-- First TXT value bound to `key`, if any. -/
def lookupTxt (txt : List (String × String)) (key : String) : Option String :=
  match txt with
  | [] => none
  | (k, v) :: rest => if k = key then some v else lookupTxt rest key

/-- The supported API version family (the node serves `is_04::v1_0_x`). -/
def versionFamilySupported (v : String) : Bool :=
  match v.toList with
  | 'v' :: '1' :: '.' :: _ => true
  | _ => false

/-- Modelled from the spec: `NmosMdnsRegistry::parse` (the mdns module is
outside the given sources).  Requires a numeric `priority` TXT attribute
and a supported API version family; rejects the record otherwise. -/
def RegistryCandidate.parse (d : DnsSdDiscovery) : Option RegistryCandidate :=
  match lookupTxt d.txt "priority" with
  | none => none
  | some ps =>
    match parseNatStr ps with
    | none => none
    | some p =>
      match lookupTxt d.txt "api_ver" with
      | none => none
      | some v =>
        if versionFamilySupported v then
          some { name := d.name, host := d.host, port := d.port,
                 priority := p, apiVer := v }
        else none

/-- One iteration of the `mdns_receiver` loop in `Node::start`: on a
successfully resolved discovery event the record is parsed and the
candidate pushed onto the `registries` collection (kept here as the
insertion-ordered sequence of pushes; a rejected parse is dropped, per the
spec, as the caller shows no failure branch).  Every other event — `Lost`
included — falls outside the `if let` and leaves the collection untouched. -/
def processEvent (regs : List RegistryCandidate) (e : NmosMdnsEvent) :
    List RegistryCandidate :=
  match e with
  | .discovery _ (some d) =>
    match RegistryCandidate.parse d with
    | some r => regs ++ [r]
    | none => regs
  | _ => regs

/-- The `mdns_receiver` loop folded over a finite event prefix. -/
def processEvents (regs : List RegistryCandidate)
    (es : List NmosMdnsEvent) : List RegistryCandidate :=
  es.foldl processEvent regs

/-! ## Build-time state for frame properties -/

/-- The state visible to the orchestrator while building resources: the
resource model together with the effect source.  Used to express that
`DeviceBuilder::build` draws on the effect source only. -/
structure ProcState where
  model : Model
  gen : Gen

/-- Method `DeviceBuilder::build` run against the whole process state: it consumes
the effect source and returns the built device; it takes no reference to
the model. -/
def buildDeviceInState (b : DeviceBuilder) (s : ProcState) : Device × ProcState :=
  let (d, g') := b.build s.gen
  (d, { s with gen := g' })

/-! ## Concrete fixtures for witnesses and counterexamples -/

/-- A concrete generator: identifier `k` and time (k, 0) at the `k`-th call. -/
def g0 : Gen :=
  { uuidOf := fun k => ⟨k % 2 ^ 128, Nat.mod_lt _ (by norm_num)⟩
    timeOf := fun k => ⟨k, 0⟩
    idx := 0 }

/-- A concrete parent node for witness instances. -/
def node0 : NodeRes :=
  { id := ⟨0, by norm_num⟩, version := ⟨0, 0⟩, label := "Test" }

/-- A concrete model holding `node0`, for witness instances. -/
def model0 : Model := Model.new.insertNode node0

/-- A concrete process state over `model0` and the generator `g0`. -/
def s0 : ProcState := { model := model0, gen := g0 }

/-- Resolved record of registry A: priority 10. -/
def discA : DnsSdDiscovery :=
  { name := "A", host := "a.local", port := 3210
    txt := [("priority", "10"), ("api_ver", "v1.0")] }

/-- Resolved record of registry B: priority 5, resolved before C. -/
def discB : DnsSdDiscovery :=
  { name := "B", host := "b.local", port := 3211
    txt := [("priority", "5"), ("api_ver", "v1.0")] }

/-- Resolved record of registry C: priority 5, resolved after B. -/
def discC : DnsSdDiscovery :=
  { name := "C", host := "c.local", port := 3212
    txt := [("priority", "5"), ("api_ver", "v1.0")] }

/-- The event sequence of the selector scenario: A(10), B(5), C(5) resolved
in that order, then B is lost. -/
def scenarioEvents : List NmosMdnsEvent :=
  [NmosMdnsEvent.discovery "A" (some discA),
   NmosMdnsEvent.discovery "B" (some discB),
   NmosMdnsEvent.discovery "C" (some discC),
   NmosMdnsEvent.lost "B"]

/-- A resolved record whose TXT attributes lack the `priority` key. -/
def discNoPri : DnsSdDiscovery :=
  { name := "X", host := "x.local", port := 80, txt := [("api_ver", "v1.0")] }

/-! ## Lemmas: hex rendering round-trips -/

theorem charNibble_nibbleChar {d : Nat} (h : d < 16) :
    charNibble (nibbleChar d) = some d := by
  interval_cases d <;> decide

theorem takeHex_natToHex (len acc n : Nat) (rest : List Char)
    (h : n < 16 ^ len) :
    takeHex len acc (natToHex n len ++ rest) = some (acc * 16 ^ len + n, rest) := by
  induction len generalizing acc n with
  | zero =>
    have hn : n = 0 := by simpa using h
    subst hn
    simp [takeHex, natToHex]
  | succ l ih =>
    have hd : n / 16 ^ l < 16 := by
      apply (Nat.div_lt_iff_lt_mul (by positivity)).mpr
      calc n < 16 ^ (l + 1) := h
        _ = 16 * 16 ^ l := by ring
    have hm : n % 16 ^ l < 16 ^ l := Nat.mod_lt _ (by positivity)
    simp only [natToHex, List.cons_append, takeHex, charNibble_nibbleChar hd]
    rw [ih (acc * 16 + n / 16 ^ l) (n % 16 ^ l) hm]
    have hdm := Nat.div_add_mod n (16 ^ l)
    congr 2
    conv_rhs => rw [← hdm]
    ring

theorem takeHex_natToHex_nil (len acc n : Nat) (h : n < 16 ^ len) :
    takeHex len acc (natToHex n len) = some (acc * 16 ^ len + n, []) := by
  have := takeHex_natToHex len acc n [] h
  simpa using this

theorem expectChar_cons (c : Char) (xs : List Char) :
    expectChar c (c :: xs) = some xs := by
  simp [expectChar]

/-- Rendering a UUID to its lowercase hyphenated string and parsing it back
is the identity. -/
theorem parseUuid_render (u : Uuid) : parseUuid (Uuid.render u) = some u := by
  obtain ⟨n, hn⟩ := u
  have h1 : n / 16 ^ 24 < 16 ^ 8 := by
    apply (Nat.div_lt_iff_lt_mul (by positivity)).mpr
    calc n < 2 ^ 128 := hn
      _ = 16 ^ 8 * 16 ^ 24 := by norm_num
  have h2 : n / 16 ^ 20 % 16 ^ 4 < 16 ^ 4 := Nat.mod_lt _ (by positivity)
  have h3 : n / 16 ^ 16 % 16 ^ 4 < 16 ^ 4 := Nat.mod_lt _ (by positivity)
  have h4 : n / 16 ^ 12 % 16 ^ 4 < 16 ^ 4 := Nat.mod_lt _ (by positivity)
  have h5 : n % 16 ^ 12 < 16 ^ 12 := Nat.mod_lt _ (by positivity)
  show parseUuidChars _ = _
  have hval : Uuid.val ⟨n, hn⟩ = n := rfl
  have htl : ∀ cs : List Char, (String.mk cs).toList = cs := fun _ => rfl
  simp only [Uuid.render, hval]
  rw [htl]
  rw [parseUuidChars]
  rw [takeHex_natToHex 8 0 _ _ h1]
  simp only [Option.bind_eq_bind, Option.some_bind, expectChar_cons]
  rw [takeHex_natToHex 4 0 _ _ h2]
  simp only [Option.some_bind, expectChar_cons]
  rw [takeHex_natToHex 4 0 _ _ h3]
  simp only [Option.some_bind, expectChar_cons]
  rw [takeHex_natToHex 4 0 _ _ h4]
  simp only [Option.some_bind, expectChar_cons]
  rw [takeHex_natToHex_nil 12 0 _ h5]
  simp only [Option.some_bind]
  have hsum : (0 * 16 ^ 8 + n / 16 ^ 24) * 16 ^ 24 +
      (0 * 16 ^ 4 + n / 16 ^ 20 % 16 ^ 4) * 16 ^ 20 +
      (0 * 16 ^ 4 + n / 16 ^ 16 % 16 ^ 4) * 16 ^ 16 +
      (0 * 16 ^ 4 + n / 16 ^ 12 % 16 ^ 4) * 16 ^ 12 +
      (0 * 16 ^ 12 + n % 16 ^ 12) = n := by
    simp only [Nat.zero_mul, Nat.zero_add]
    have e24 : (16 : Nat) ^ 24 = 79228162514264337593543950336 := by norm_num
    have e20 : (16 : Nat) ^ 20 = 1208925819614629174706176 := by norm_num
    have e16 : (16 : Nat) ^ 16 = 18446744073709551616 := by norm_num
    have e12 : (16 : Nat) ^ 12 = 281474976710656 := by norm_num
    have e4 : (16 : Nat) ^ 4 = 65536 := by norm_num
    rw [e24, e20, e16, e12, e4]
    omega
  simp only [hsum]
  simp [hn]
  omega

/-- Parsing back a rendered list of UUIDs recovers the list, in order. -/
theorem parseUuidList_map_render (l : List Uuid) :
    parseUuidList (l.map Uuid.render) = some l := by
  induction l with
  | nil => rfl
  | cons u us ih =>
    simp only [List.map_cons, parseUuidList, parseUuid_render, ih]

/-- Timestamp comparison is reflexive. -/
theorem TaiTime.leb_refl (a : TaiTime) : a.leb a = true := by
  simp [TaiTime.leb]

/-- A timestamp never exceeds its clamped successor. -/
theorem TaiTime.leb_max_left (a b : TaiTime) : a.leb (a.max b) = true := by
  unfold TaiTime.max
  by_cases h : a.leb b = true
  · simp [h]
  · simp [h, TaiTime.leb_refl]

/-! ## Claim theorems -/

/-- C1: evaluation of the discovery loop of `Node::start` at the claim's
scenario.  After resolving A(10), B(5), C(5) and then losing B, the loop's
candidate collection still contains B: `Lost` events fall outside the
`if let NmosMdnsEvent::Discovery(_, Ok(..))` arm and nothing is ever
removed from `registries`, so B is not removed, C is not promoted, and no
active-candidate bookkeeping exists at all. -/
theorem lost_event_leaves_candidates_unchanged :
    (processEvents [] scenarioEvents).map (fun r => (r.name, r.priority)) =
      [("A", 10), ("B", 5), ("C", 5)] := rfl

/-- C2: a resolved record whose TXT attributes are missing the `priority`
key, or whose priority is non-numeric, fails to parse, and processing its
discovery event inserts nothing into the candidate collection. -/
theorem missing_priority_candidate_dropped (d : DnsSdDiscovery)
    (h : lookupTxt d.txt "priority" = none ∨
      ∃ s, lookupTxt d.txt "priority" = some s ∧ parseNatStr s = none) :
    RegistryCandidate.parse d = none ∧
      ∀ (regs : List RegistryCandidate) (name : String),
        processEvent regs (NmosMdnsEvent.discovery name (some d)) = regs := by
  have hp : RegistryCandidate.parse d = none := by
    rcases h with h | ⟨s, hs, hn⟩
    · simp [RegistryCandidate.parse, h]
    · simp [RegistryCandidate.parse, hs, hn]
  refine ⟨hp, fun regs name => ?_⟩
  simp [processEvent, hp]

/-- Witness for C2: the record `discNoPri` has no `priority` TXT attribute;
it is rejected and processing its event leaves the empty collection empty. -/
theorem missing_priority_candidate_dropped_witness :
    RegistryCandidate.parse discNoPri = none ∧
      processEvent [] (NmosMdnsEvent.discovery "X" (some discNoPri)) = [] :=
  ⟨(missing_priority_candidate_dropped discNoPri (Or.inl rfl)).1,
   (missing_priority_candidate_dropped discNoPri (Or.inl rfl)).2 [] "X"⟩

/-- Counterexample to C3 as stated: the startup sequence of
`NodeBuilder::build` inserts no Sender resource at all — the model built at
the concrete generator `g0` has an empty sender collection, so it is false
that one resource of each of the four kinds is inserted. -/
theorem startup_inserts_no_sender :
    ¬ ∃ s : Sender, s ∈ (nodeBuilderBuild g0).1.senders := by
  rintro ⟨s, hs⟩
  have h : (nodeBuilderBuild g0).1.senders = [] := rfl
  rw [h] at hs
  exact (List.not_mem_nil s) hs

/-- C3 as amended: at startup, before discovery is started, the
orchestrator builds and inserts exactly one resource of each of the three
kinds Node, Device and Receiver, and no Sender. -/
theorem startup_populates_three_kinds (g : Gen) :
    ((nodeBuilderBuild g).1.nodes.length = 1) ∧
      ((nodeBuilderBuild g).1.devices.length = 1) ∧
      ((nodeBuilderBuild g).1.receivers.length = 1) ∧
      ((nodeBuilderBuild g).1.senders = []) := by
  simp [nodeBuilderBuild, Model.new, Model.insertNode, Model.insertDevice,
    Model.insertReceiver, NodeRes.build, DeviceBuilder.build,
    DeviceBuilder.new, Receiver.build, Gen.fresh]

/-- C4: serializing any Device with `to_json` and parsing the schema's JSON
back reproduces id, version string, label, type, node_id, and the sender
and receiver id lists exactly, in order. -/
theorem device_json_roundtrip (d : Device) :
    deviceFromJson (Device.to_json d) =
      some { id := d.id, version := d.version.render, label := d.label,
             type_ := d.type_, node_id := d.node_id, senders := d.senders,
             receivers := d.receivers } := by
  simp [deviceFromJson, Device.to_json, parseUuid_render, parseUuidList_map_render]

/-- C5: after any mutation of a Device the version is at least the version
before the mutation, for every clock reading — including one that moved
backward past the stored version. -/
theorem update_version_monotone (d : Device) (f : Device → Device)
    (now : TaiTime) :
    TaiTime.leb d.version (Device.update d f now).version = true := by
  have h : (Device.update d f now).version = d.version.max now := rfl
  rw [h]
  exact TaiTime.leb_max_left d.version now

/-- C6: `DeviceBuilder::build` draws only on the effect source — for every
process state the model component is untouched — and the built device is
present only after the caller's separate `insert_device`: when the parent
node is in the model that insert succeeds with a Constraint check and the
resulting model contains the device. -/
theorem build_leaves_model_unchanged (b : DeviceBuilder) (s : ProcState) :
    (buildDeviceInState b s).2.model = s.model ∧
      ((∃ n ∈ s.model.nodes, n.id = b.node_id) →
        ∃ m', Model.insertDevice s.model (buildDeviceInState b s).1 =
            Except.ok m' ∧
          (buildDeviceInState b s).1 ∈ m'.devices) := by
  refine ⟨rfl, ?_⟩
  rintro ⟨n, hn, hid⟩
  have hnodeid : (buildDeviceInState b s).1.node_id = b.node_id := rfl
  have hany : (s.model.nodes.any
      fun x => decide (x.id = (buildDeviceInState b s).1.node_id)) = true := by
    rw [List.any_eq_true]
    exact ⟨n, hn, by rw [hnodeid, hid]; simp⟩
  refine ⟨{ s.model with
    devices := s.model.devices ++ [(buildDeviceInState b s).1] }, ?_, ?_⟩
  · simp [Model.insertDevice, hany]
  · simp

/-- Witness for C6: building from the concrete state `s0`, whose model
holds the parent `node0`, leaves the model untouched, and the separate
insert succeeds and makes the built device present. -/
theorem build_leaves_model_unchanged_witness :
    (buildDeviceInState (DeviceBuilder.new node0 "devicetype") s0).2.model =
        s0.model ∧
      ∃ m', Model.insertDevice s0.model
          (buildDeviceInState (DeviceBuilder.new node0 "devicetype") s0).1 =
            Except.ok m' ∧
        (buildDeviceInState (DeviceBuilder.new node0 "devicetype") s0).1 ∈
          m'.devices :=
  ⟨(build_leaves_model_unchanged (DeviceBuilder.new node0 "devicetype") s0).1,
   (build_leaves_model_unchanged (DeviceBuilder.new node0 "devicetype") s0).2
     ⟨node0, by simp [s0, model0, Model.insertNode, Model.new], rfl⟩⟩

/-- C8: the device built from a parent node stores the parent's identifier
in `node_id`, not the parent object. -/
theorem built_device_references_parent_by_id (node : NodeRes) (t : String)
    (g : Gen) :
    ((DeviceBuilder.new node t).build g).1.node_id = node.id := rfl

/-- C9: a builder whose optional label was never set produces a device
whose label is the empty string. -/
theorem unset_label_defaults_empty (b : DeviceBuilder) (g : Gen)
    (h : b.label = none) : (b.build g).1.label = "" := by
  simp [DeviceBuilder.build, Gen.fresh, h]

/-- Witness for C9: `DeviceBuilder::new` leaves the label unset, and the
built device's label is empty. -/
theorem unset_label_defaults_empty_witness :
    (DeviceBuilder.new node0 "devicetype").label = none ∧
      ((DeviceBuilder.new node0 "devicetype").build g0).1.label = "" :=
  ⟨rfl, unset_label_defaults_empty (DeviceBuilder.new node0 "devicetype") g0 rfl⟩

/-- C10: every freshly built Device has empty `senders` and `receivers`
lists, whatever the parent, type string, label and effect source. -/
theorem built_device_has_no_children (b : DeviceBuilder) (g : Gen) :
    (b.build g).1.senders = [] ∧ (b.build g).1.receivers = [] :=
  ⟨rfl, rfl⟩

end Nmos
